import Mathlib

/-!
Verification of the plant-identification orchestrator backend
(`backend/main.py`, `backend/services/cache_service.py`).

JSON values (results of Python `json.loads` / `r.json()`) are embedded as the
inductive `Json`. Python `dict.get` returning `None` and a present JSON `null`
are both represented as `Json.null` (they are the same Python object `None`);
key membership (`in`) is modelled separately, since it distinguishes a present
null from a missing key. Python truthiness, `isinstance` checks (where `bool`
is a subtype of `int`), and the short-circuit `or` returning the last operand
are modelled explicitly, following the source.
-/

inductive Json where
  | null : Json
  | bool : Bool → Json
  | num : ℚ → Json
  | str : String → Json
  | arr : List Json → Json
  | obj : List (String × Json) → Json

mutual

def Json.decEq : (a b : Json) → Decidable (a = b)
  | .null, .null => isTrue rfl
  | .bool x, .bool y =>
    if h : x = y then isTrue (by rw [h]) else isFalse (fun hh => h (by injection hh))
  | .num x, .num y =>
    if h : x = y then isTrue (by rw [h]) else isFalse (fun hh => h (by injection hh))
  | .str x, .str y =>
    if h : x = y then isTrue (by rw [h]) else isFalse (fun hh => h (by injection hh))
  | .arr xs, .arr ys =>
    match Json.decEqList xs ys with
    | isTrue h => isTrue (by rw [h])
    | isFalse h => isFalse (fun hh => h (by injection hh))
  | .obj xs, .obj ys =>
    match Json.decEqKvs xs ys with
    | isTrue h => isTrue (by rw [h])
    | isFalse h => isFalse (fun hh => h (by injection hh))
  | .null, .bool _ => isFalse (fun h => nomatch h)
  | .null, .num _ => isFalse (fun h => nomatch h)
  | .null, .str _ => isFalse (fun h => nomatch h)
  | .null, .arr _ => isFalse (fun h => nomatch h)
  | .null, .obj _ => isFalse (fun h => nomatch h)
  | .bool _, .null => isFalse (fun h => nomatch h)
  | .bool _, .num _ => isFalse (fun h => nomatch h)
  | .bool _, .str _ => isFalse (fun h => nomatch h)
  | .bool _, .arr _ => isFalse (fun h => nomatch h)
  | .bool _, .obj _ => isFalse (fun h => nomatch h)
  | .num _, .null => isFalse (fun h => nomatch h)
  | .num _, .bool _ => isFalse (fun h => nomatch h)
  | .num _, .str _ => isFalse (fun h => nomatch h)
  | .num _, .arr _ => isFalse (fun h => nomatch h)
  | .num _, .obj _ => isFalse (fun h => nomatch h)
  | .str _, .null => isFalse (fun h => nomatch h)
  | .str _, .bool _ => isFalse (fun h => nomatch h)
  | .str _, .num _ => isFalse (fun h => nomatch h)
  | .str _, .arr _ => isFalse (fun h => nomatch h)
  | .str _, .obj _ => isFalse (fun h => nomatch h)
  | .arr _, .null => isFalse (fun h => nomatch h)
  | .arr _, .bool _ => isFalse (fun h => nomatch h)
  | .arr _, .num _ => isFalse (fun h => nomatch h)
  | .arr _, .str _ => isFalse (fun h => nomatch h)
  | .arr _, .obj _ => isFalse (fun h => nomatch h)
  | .obj _, .null => isFalse (fun h => nomatch h)
  | .obj _, .bool _ => isFalse (fun h => nomatch h)
  | .obj _, .num _ => isFalse (fun h => nomatch h)
  | .obj _, .str _ => isFalse (fun h => nomatch h)
  | .obj _, .arr _ => isFalse (fun h => nomatch h)

def Json.decEqList : (xs ys : List Json) → Decidable (xs = ys)
  | [], [] => isTrue rfl
  | [], _ :: _ => isFalse (fun h => nomatch h)
  | _ :: _, [] => isFalse (fun h => nomatch h)
  | x :: xs, y :: ys =>
    match Json.decEq x y with
    | isFalse h1 => isFalse (fun hh => h1 (by injection hh))
    | isTrue h1 =>
      match Json.decEqList xs ys with
      | isTrue h2 => isTrue (by rw [h1, h2])
      | isFalse h2 => isFalse (fun hh => h2 (by injection hh))

def Json.decEqKvs : (xs ys : List (String × Json)) → Decidable (xs = ys)
  | [], [] => isTrue rfl
  | [], _ :: _ => isFalse (fun h => nomatch h)
  | _ :: _, [] => isFalse (fun h => nomatch h)
  | (k1, v1) :: xs, (k2, v2) :: ys =>
    if h0 : k1 = k2 then
      match Json.decEq v1 v2 with
      | isFalse h1 =>
        isFalse (fun hh => h1 (by injection hh with hhd htl; exact congrArg Prod.snd hhd))
      | isTrue h1 =>
        match Json.decEqKvs xs ys with
        | isTrue h2 => isTrue (by rw [h0, h1, h2])
        | isFalse h2 => isFalse (fun hh => h2 (by injection hh))
    else
      isFalse (fun hh => h0 (by injection hh with hhd htl; exact congrArg Prod.fst hhd))

end

instance : DecidableEq Json := Json.decEq

namespace Json

/-- Python truthiness (`bool(x)`) of a decoded JSON value. -/
def truthy : Json → Bool
  | .null => false
  | .bool b => b
  | .num q => q != 0
  | .str s => s != ""
  | .arr xs => !xs.isEmpty
  | .obj kvs => !kvs.isEmpty

/-- Python `a or b` on decoded JSON values: `a` if truthy, else `b`. -/
def orPy (a b : Json) : Json := if a.truthy then a else b

/-- `d.get(k)` on a decoded JSON value: `None` (here `.null`) when the key is
missing or the value is not a dict. The source only calls `.get` on dicts. -/
def get : Json → String → Json
  | .obj kvs, k => ((kvs.lookup k).getD .null)
  | _, _ => .null

/-- Python `k in d` key membership for a decoded JSON dict. -/
def member (k : String) : Json → Bool
  | .obj kvs => kvs.any (fun kv => kv.1 == k)
  | _ => false

def isObj : Json → Bool
  | .obj _ => true
  | _ => false

def isList : Json → Bool
  | .arr _ => true
  | _ => false

def isStr : Json → Bool
  | .str _ => true
  | _ => false

/-- Python `isinstance(v, (int, float))` on a decoded JSON value. JSON numbers
decode to `int`/`float`; JSON booleans decode to `bool`, which IS a subclass
of `int` in Python, so they pass this check too. -/
def isNum : Json → Bool
  | .num _ => true
  | .bool _ => true
  | _ => false

/-- Python `float(v)` for values passing `isNum` (`float(True) = 1.0`). -/
def toNum : Json → ℚ
  | .num q => q
  | .bool true => 1
  | .bool false => 0
  | _ => 0

end Json

/-- Rendering of a decoded JSON number by Python `str`. Integers render as in
Python; the exact decimal formatting of non-integer floats is abstracted (no
claim depends on it). -/
def renderNum (q : ℚ) : String :=
  if q.den = 1 then toString q.num else toString q.num ++ "/" ++ toString q.den

mutual

/-- Python `repr` of a decoded JSON value (used by `str` on list/dict
elements). -/
def pyRepr : Json → String
  | .null => "None"
  | .bool true => "True"
  | .bool false => "False"
  | .num q => renderNum q
  | .str s => "'" ++ s ++ "'"
  | .arr xs => "[" ++ pyReprSep xs ++ "]"
  | .obj kvs => "\x7b" ++ pyReprKvs kvs ++ "\x7d"

def pyReprSep : List Json → String
  | [] => ""
  | [x] => pyRepr x
  | x :: y :: xs => pyRepr x ++ ", " ++ pyReprSep (y :: xs)

def pyReprKvs : List (String × Json) → String
  | [] => ""
  | [(k, v)] => "'" ++ k ++ "': " ++ pyRepr v
  | (k, v) :: x :: xs => "'" ++ k ++ "': " ++ pyRepr v ++ ", " ++ pyReprKvs (x :: xs)

end

/-- Python `str` of a decoded JSON value: a string renders as itself,
everything else as its `repr`. -/
def pyStr : Json → String
  | .str s => s
  | j => pyRepr j

/-- Truthiness of an `Optional[str]` Python value (`None` and `""` falsy). -/
def optStrTruthy : Option String → Bool
  | none => false
  | some s => s != ""

/-- ASCII whitespace stripped by Python `str.strip()` (the further Unicode
whitespace Python also strips does not occur in the modelled strings). -/
def isPySpace (c : Char) : Bool :=
  c == ' ' || c == '\t' || c == '\n' || c == '\r' || c == '\x0b' || c == '\x0c'

/-- Python `str.strip()`. -/
def pyStrip (s : String) : String :=
  ⟨((s.data.dropWhile isPySpace).reverse.dropWhile isPySpace).reverse⟩

/-- The `{"text": ..., "citation": ...}` pair returned by
`_extract_detail_text_and_citation`. -/
structure DetailText where
  text : Option String
  citation : Option String
deriving DecidableEq, Repr

/-- `_extract_detail_text_and_citation` (main.py:225-239): extract text and
citation from the various Plant.id detail formats. -/
def extract_detail_text_and_citation (v : Json) : DetailText :=
  match v with
  | .null => ⟨none, none⟩
  | .str s => ⟨some s, none⟩
  | .arr xs => ⟨some (String.intercalate ", " (xs.map pyStr)), none⟩
  | .obj _ =>
    let text := Json.orPy (v.get "value") (Json.orPy (v.get "text") (v.get "description"))
    let citation := v.get "citation"
    let citationOut := if citation.truthy then some (pyStr citation) else none
    if text.truthy then ⟨some (pyStr text), citationOut⟩
    else ⟨none, citationOut⟩
  | other => ⟨some (pyStr other), none⟩

/-- `_extract_suggestions` (main.py:242-257): suggestion list from
`result.classification.suggestions`, falling back to top-level
`suggestions` when the first source is missing or empty. -/
def extract_suggestions (resp : Json) : List Json :=
  if !resp.isObj then []
  else
    let resultObj := Json.orPy (resp.get "result") (.obj [])
    let fromClassification : List Json :=
      if resultObj.isObj then
        let classification := resultObj.get "classification"
        if classification.isObj then
          match classification.get "suggestions" with
          | .arr s => s
          | _ => []
        else []
      else []
    if !fromClassification.isEmpty then fromClassification
    else
      match resp.get "suggestions" with
      | .arr s2 => s2
      | _ => []

/-- `_extract_common_name` (main.py:260-280). The source's `common` variable
holds either the raw `plant_name` value, a stringified common name, or `None`;
it is returned as-is, so the result is a `Json` value, not necessarily a
string. -/
def extract_common_name (top : Json) : Json :=
  let pn := top.get "plant_name"
  let common1 : Json :=
    if pn.truthy then pn
    else
      let cn := top.get "common_names"
      if cn.truthy then
        match cn with
        | .arr (x :: _) => .str (pyStr x)
        | _ => .str (pyStr cn)
      else .null
  if common1.truthy then common1
  else
    let details := Json.orPy (top.get "details") (.obj [])
    if details.isObj && (details.get "common_names").truthy then
      match details.get "common_names" with
      | .arr (x :: _) => .str (pyStr x)
      | cn2 => .str (pyStr cn2)
    else common1

/-- The `for k in ("probability", "prob", "confidence")` lookup loop of
`_extract_confidence`: first numeric value wins. -/
def numKeyLookup (d : Json) : Option ℚ :=
  if (d.get "probability").isNum then some (d.get "probability").toNum
  else if (d.get "prob").isNum then some (d.get "prob").toNum
  else if (d.get "confidence").isNum then some (d.get "confidence").toNum
  else none

/-- `_extract_confidence` (main.py:283-302). -/
def extract_confidence (top resp : Json) : Option ℚ :=
  match numKeyLookup top with
  | some c => some c
  | none =>
    if (resp.get "result").isObj then
      let maybe := (resp.get "result").get "classification"
      if maybe.isObj then
        match maybe.get "suggestions" with
        | .arr (f :: _) => if f.isObj then numKeyLookup f else none
        | _ => none
      else none
    else none

/-- A `{"text": ..., "citation": ...}` care entry as built by
`_extract_care_info`. -/
def mkTextCitation (t : String) (c : Option String) : Json :=
  .obj [("text", .str t), ("citation", match c with | some s => .str s | none => .null)]

/-- `_extract_care_info` (main.py:305-342): the `care` dict with optional
`watering` and `light` entries (inserted in that order). -/
def extract_care_info (details : Json) : Json :=
  let wateringRaw := details.get "watering"
  let bw := extract_detail_text_and_citation (details.get "best_watering")
  let wt0 : Option String := none
  let wc0 : Option String := bw.citation
  let wtwc1 : Option String × Option String :=
    if wateringRaw.isObj then
      let minV := wateringRaw.get "min"
      let maxV := wateringRaw.get "max"
      if minV ≠ Json.null ∨ maxV ≠ Json.null then
        let text :=
          if minV ≠ Json.null ∧ maxV ≠ Json.null then
            "Kelembaban ideal: " ++ pyStr minV ++ " â€” " ++ pyStr maxV
          else if minV ≠ Json.null then "Kelembaban minimal: " ++ pyStr minV
          else "Kelembaban hingga: " ++ pyStr maxV
        let c :=
          if (wateringRaw.get "citation").truthy then
            some (pyStr (wateringRaw.get "citation"))
          else wc0
        (some text, c)
      else (wt0, wc0)
    else (wt0, wc0)
  let wtwc2 : Option String × Option String :=
    if !optStrTruthy wtwc1.1 && optStrTruthy bw.text then
      (bw.text.map pyStrip, bw.citation)
    else wtwc1
  let careWatering : List (String × Json) :=
    match wtwc2.1 with
    | some t => if t ≠ "" then [("watering", mkTextCitation t wtwc2.2)] else []
    | none => []
  let lightRaw := Json.orPy (details.get "best_light_condition") (details.get "best_light")
  let li := extract_detail_text_and_citation lightRaw
  let careLight : List (String × Json) :=
    match li.text with
    | some t => if t ≠ "" then [("light", mkTextCitation (pyStrip t) li.citation)] else []
    | none => []
  Json.obj (careWatering ++ careLight)

/-- The similar-images list for one disease suggestion `d` in
`_extract_health_assessment`: `d.get("similar_images", [])` is iterated, so a
present non-iterable value (null, number, bool) raises `TypeError` (modelled
as `.error ()`); iterating a string or dict yields non-dict items, which the
`isinstance(img, dict)` filter drops. -/
def diseaseSimilarImages (d : Json) : Except Unit (List Json) :=
  if !(Json.member "similar_images" d) then .ok []
  else
    match d.get "similar_images" with
    | .arr xs =>
      .ok (xs.filterMap (fun img =>
        if img.isObj then
          some (Json.obj [("url", img.get "url"), ("url_small", img.get "url_small")])
        else none))
    | .str _ => .ok []
    | .obj _ => .ok []
    | _ => .error ()

/-- One entry of the disease list built by `_extract_health_assessment`. -/
def diseaseEntry (d : Json) : Except Unit Json := do
  let imgs ← diseaseSimilarImages d
  pure (Json.obj [("name", d.get "name"), ("probability", d.get "probability"),
                  ("similar_images", .arr imgs)])

/-- The list comprehension of `_extract_health_assessment` over the already
`isinstance(d, dict)`-filtered suggestions, evaluated left to right; a raised
`TypeError` in any entry aborts the whole comprehension. -/
def diseaseList : List Json → Except Unit (List Json)
  | [] => .ok []
  | d :: rest => do
    let e ← diseaseEntry d
    let es ← diseaseList rest
    pure (e :: es)

/-- The `is_healthy` / `probability` pair of the `health` dict
(main.py:354-360): defaults `(True, 1.0)`, overwritten when `is_healthy` is a
dict with a numeric `probability`, thresholded at `>= 0.5`. -/
def healthFlagProb (resultObj : Json) : Bool × ℚ :=
  let ihObj := resultObj.get "is_healthy"
  if ihObj.isObj then
    let prob := ihObj.get "probability"
    if prob.isNum then (decide (mkRat 1 2 ≤ prob.toNum), prob.toNum)
    else (true, 1)
  else (true, 1)

/-- The `diseases` list of the `health` dict (main.py:362-380): the default
`[]` unless `disease` is a dict with a list under `suggestions`. -/
def healthDiseasesE (resultObj : Json) : Except Unit (List Json) :=
  let dObj := resultObj.get "disease"
  if dObj.isObj then
    match dObj.get "suggestions" with
    | .arr ss => diseaseList (ss.filter (fun d => d.isObj))
    | _ => .ok []
  else .ok []

/-- `_extract_health_assessment` (main.py:345-381). Returns `.ok none` when
`result` is not a dict or lacks an `is_healthy` key; `.error ()` models the
`TypeError` raised on a non-iterable `similar_images` value (caught by the
caller's `except`). -/
def extract_health_assessment (resp : Json) : Except Unit (Option Json) :=
  let resultObj := resp.get "result"
  if !resultObj.isObj then .ok none
  else if !(Json.member "is_healthy" resultObj) then .ok none
  else
    do
      let diseases ← healthDiseasesE resultObj
      pure (some (Json.obj [("is_healthy", .bool (healthFlagProb resultObj).1),
                            ("probability", .num (healthFlagProb resultObj).2),
                            ("diseases", .arr diseases)]))

/-- `_normalize_plant_id_response` (main.py:384-415). The `try` body's only
possible exceptions are (a) the `AttributeError` from `_extract_care_info`
when the top suggestion's `details` value is truthy but not a dict, and
(b) the `TypeError` from `_extract_health_assessment` on a non-iterable
`similar_images` value; in both cases the `except` swallows them and the
function returns only `provider` and `raw_response`. Otherwise `out.update`
appends the seven derived keys in the literal's order. -/
def normalize_plant_id_response (resp : Json) : Json :=
  let base : List (String × Json) := [("provider", .str "plant.id"), ("raw_response", resp)]
  let suggestions := extract_suggestions resp
  match suggestions.head? with
  | none => .obj base
  | some top =>
    if top.truthy && top.isObj then
      let common := extract_common_name top
      let sci := Json.orPy (top.get "scientific_name")
                   (Json.orPy (top.get "name") (top.get "species"))
      let conf := extract_confidence top resp
      let detailsRaw := top.get "details"
      if detailsRaw.truthy && !detailsRaw.isObj then .obj base
      else
        let details := if detailsRaw.truthy then detailsRaw else .obj []
        let care := extract_care_info details
        let descRaw := Json.orPy (details.get "description_all")
                         (Json.orPy (details.get "description") (details.get "description_gpt"))
        let description := (extract_detail_text_and_citation descRaw).text
        match extract_health_assessment resp with
        | .error _ => .obj base
        | .ok health =>
          .obj (base ++ [
            ("id", .str (pyStr (Json.orPy (top.get "id")
                                  (Json.orPy (top.get "species_id") (.str ""))))),
            ("common_name", common),
            ("scientific_name", if sci = Json.null then Json.null else .str (pyStr sci)),
            ("confidence", match conf with | some q => .num q | none => .null),
            ("care", care),
            ("description", match description with | some t => .str t | none => .null),
            ("health_assessment", match health with | some h => h | none => .null)])
    else .obj base

/-! ## Cache keys (`_make_cache_key_for_bytes`, main.py:62-63, 181, 207)

`hashlib.sha256(...).hexdigest()` is modelled by a full SHA-256 (FIPS 180-4)
implementation over byte lists. No theorem depends on specific digest values;
the cache-key properties follow from determinism and the key's shape. -/

namespace SHA256

def mask32 (x : Nat) : Nat := x % 4294967296

def rotr (n x : Nat) : Nat := mask32 ((x >>> n) ||| (x <<< (32 - n)))

def bigSigma0 (x : Nat) : Nat := rotr 2 x ^^^ rotr 13 x ^^^ rotr 22 x
def bigSigma1 (x : Nat) : Nat := rotr 6 x ^^^ rotr 11 x ^^^ rotr 25 x
def smallSigma0 (x : Nat) : Nat := rotr 7 x ^^^ rotr 18 x ^^^ (x >>> 3)
def smallSigma1 (x : Nat) : Nat := rotr 17 x ^^^ rotr 19 x ^^^ (x >>> 10)
def ch (x y z : Nat) : Nat := (x &&& y) ^^^ ((x ^^^ 4294967295) &&& z)
def maj (x y z : Nat) : Nat := (x &&& y) ^^^ (x &&& z) ^^^ (y &&& z)

def kConst : List Nat := [
  1116352408, 1899447441, 3049323471, 3921009573,
  961987163, 1508970993, 2453635748, 2870763221,
  3624381080, 310598401, 607225278, 1426881987,
  1925078388, 2162078206, 2614888103, 3248222580,
  3835390401, 4022224774, 264347078, 604807628,
  770255983, 1249150122, 1555081692, 1996064986,
  2554220882, 2821834349, 2952996808, 3210313671,
  3336571891, 3584528711, 113926993, 338241895,
  666307205, 773529912, 1294757372, 1396182291,
  1695183700, 1986661051, 2177026350, 2456956037,
  2730485921, 2820302411, 3259730800, 3345764771,
  3516065817, 3600352804, 4094571909, 275423344,
  430227734, 506948616, 659060556, 883997877,
  958139571, 1322822218, 1537002063, 1747873779,
  1955562222, 2024104815, 2227730452, 2361852424,
  2428436474, 2756734187, 3204031479, 3329325298]

def hInit : List Nat := [
  1779033703, 3144134277, 1013904242, 2773480762,
  1359893119, 2600822924, 528734635, 1541459225]

/-- Message padding: append `0x80`, zeros to 56 mod 64, then the bit length
as 8 big-endian bytes. -/
def padMsg (msg : List Nat) : List Nat :=
  let L := msg.length
  let z := (64 + 56 - ((L + 1) % 64)) % 64
  let lenBytes := (List.range 8).map (fun i => ((L * 8) >>> (8 * (7 - i))) % 256)
  msg ++ [0x80] ++ List.replicate z 0 ++ lenBytes

def chunk64 : List Nat → List (List Nat)
  | [] => []
  | x :: rest => ((x :: rest).take 64) :: chunk64 ((x :: rest).drop 64)
termination_by l => l.length
decreasing_by
  simp [List.length_drop]
  omega

def bytesToWord (bs : List Nat) : Nat := bs.foldl (fun acc b => acc * 256 + b) 0

/-- One message-schedule extension step: append
`sigma1(w[n-2]) + w[n-7] + sigma0(w[n-15]) + w[n-16]` mod 2^32. -/
def extendStep (w : List Nat) : List Nat :=
  w ++ [mask32 (smallSigma1 (w.getD (w.length - 2) 0) + w.getD (w.length - 7) 0 +
                smallSigma0 (w.getD (w.length - 15) 0) + w.getD (w.length - 16) 0)]

/-- One compression round on the state `[a,b,c,d,e,f,g,h]`. -/
def round1 (st : List Nat) (kv wv : Nat) : List Nat :=
  match st with
  | [a, b, c, d, e, f, g, h] =>
    let t1 := mask32 (h + bigSigma1 e + ch e f g + kv + wv)
    let t2 := mask32 (bigSigma0 a + maj a b c)
    [mask32 (t1 + t2), a, b, c, mask32 (d + t1), e, f, g]
  | other => other

def compressBlock (hs : List Nat) (block : List Nat) : List Nat :=
  let w16 := (List.range 16).map (fun i => bytesToWord ((block.drop (4 * i)).take 4))
  let ws := List.foldl (fun w _ => extendStep w) w16 (List.range 48)
  let fin := List.foldl (fun st i => round1 st (kConst.getD i 0) (ws.getD i 0)) hs (List.range 64)
  List.zipWith (fun x y => mask32 (x + y)) hs fin

def hexDigit (n : Nat) : Char :=
  "0123456789abcdef".toList.getD n '0'

def wordToHex (w : Nat) : String :=
  ⟨(List.range 8).map (fun i => hexDigit ((w >>> (4 * (7 - i))) % 16))⟩

end SHA256

/-- `hashlib.sha256(b).hexdigest()` over raw bytes. -/
def sha256hex (msg : List Nat) : String :=
  String.join ((List.foldl SHA256.compressBlock SHA256.hInit
    (SHA256.chunk64 (SHA256.padMsg msg))).map SHA256.wordToHex)

/-- `_make_cache_key_for_bytes` (main.py:62-63). -/
def make_cache_key_for_bytes (b : List Nat) : String := sha256hex b

/-- Python `str(bool)` as interpolated by the f-string `f"_h{check_health}_v2"`. -/
def pyBoolRepr : Bool → String
  | true => "True"
  | false => "False"

/-- UTF-8 bytes of a string (`image_url.encode("utf-8")`). -/
def strUtf8Bytes (s : String) : List Nat := s.toUTF8.toList.map (fun b => b.toNat)

/-- The request data the multipart branch of `identify` derives its cache key
from: image bytes, the `check_health` query flag, and the `latitude` /
`longitude` form fields (form values arrive as strings). -/
structure IdentifyRequest where
  content : List Nat
  check_health : Bool
  latitude : Option String
  longitude : Option String
deriving DecidableEq, Repr

/-- The cache key computed at main.py:181:
`_make_cache_key_for_bytes(content) + f"_h{check_health}_v2"`. The latitude
and longitude form fields do not enter the key. -/
def identify_cache_key (req : IdentifyRequest) : String :=
  make_cache_key_for_bytes req.content ++ "_h" ++ pyBoolRepr req.check_health ++ "_v2"

/-- The cache key computed at main.py:207 for the JSON-body branch:
`sha256(image_url.encode("utf-8")).hexdigest() + f"_h{check_health}_v2"`. -/
def identify_cache_key_url (image_url : String) (check_health : Bool) : String :=
  sha256hex (strUtf8Bytes image_url) ++ "_h" ++ pyBoolRepr check_health ++ "_v2"

/-! ## Upstream client `_call_plant_id` (main.py:80-119)

The HTTP POST of attempt `i` is abstracted by `up i`: it either returns a
parsed JSON body (2xx), raises `httpx.HTTPStatusError` with a status code
(via `raise_for_status`), or raises a transport-level `httpx.RequestError`
(distinguished by an opaque tag). The loop state is the source's `attempt`,
`backoff` and `last_exc` variables; `while attempt < 4` is structural
recursion on the remaining budget `4 - attempt`. Sleeps are recorded in
seconds. -/

inductive UpstreamResp where
  | ok (body : Json)
  | httpError (status : Nat)
  | netError (tag : Nat)
deriving DecidableEq

/-- The Python exception object held in `last_exc` / interpolated into the
`HTTPException` detail string. -/
inductive PyExc where
  | requestError (tag : Nat)
  | httpStatusError (status : Nat)
deriving DecidableEq, Repr

/-- Outcome of `_call_plant_id`: a parsed body, or a raised
`HTTPException(status_code=..., detail=f"Upstream Plant.id error: {cause}")`. -/
inductive CallResult where
  | ok (body : Json)
  | httpException (status : Nat) (cause : Option PyExc)
deriving DecidableEq

structure CallTrace where
  attempts : Nat
  sleeps : List ℚ
  result : CallResult
deriving DecidableEq

/-- The exception an upstream failure raises inside the `try`. -/
def toExc : UpstreamResp → PyExc
  | .netError t => .requestError t
  | .httpError s => .httpStatusError s
  | .ok _ => .requestError 0

/-- Whether attempt outcome `r` takes one of the two retrying branches of
the source (`httpx.RequestError`, or `HTTPStatusError` with a 5xx status). -/
def isRetryableFailure : UpstreamResp → Bool
  | .netError _ => true
  | .httpError s => decide (500 ≤ s) && decide (s < 600)
  | .ok _ => false

/-- The `while attempt < 4` loop of `_call_plant_id`, with `fuel = 4 - attempt`.
`attempts` counts HTTP POSTs issued, `sleeps` the `asyncio.sleep` durations in
order (the source also sleeps after the final failed attempt, before the loop
exits and raises). -/
def call_plant_id_loop (up : Nat → UpstreamResp) :
    Nat → Nat → ℚ → Option PyExc → CallTrace
  | 0, _, _, lastExc => ⟨0, [], .httpException 502 lastExc⟩
  | fuel + 1, attempt, backoff, _ =>
    match up attempt with
    | .ok body => ⟨1, [], .ok body⟩
    | .netError t =>
      let rest := call_plant_id_loop up fuel (attempt + 1) (backoff * 2)
        (some (.requestError t))
      ⟨rest.attempts + 1, backoff :: rest.sleeps, rest.result⟩
    | .httpError s =>
      if 500 ≤ s ∧ s < 600 then
        let rest := call_plant_id_loop up fuel (attempt + 1) (backoff * 2)
          (some (.httpStatusError s))
        ⟨rest.attempts + 1, backoff :: rest.sleeps, rest.result⟩
      else ⟨1, [], .httpException 502 (some (.httpStatusError s))⟩

/-- `_call_plant_id` (main.py:80-119): `attempt = 0`, `backoff = 0.5`,
`last_exc = None`. -/
def call_plant_id (up : Nat → UpstreamResp) : CallTrace :=
  call_plant_id_loop up 4 0 (mkRat 1 2) none

/-- The backoff sleep sequence `b, 2b, 4b, ...` of length `n`. -/
def geomSleeps (b : ℚ) : Nat → List ℚ
  | 0 => []
  | n + 1 => b :: geomSleeps (b * 2) n

/-! ## `SimpleCache` and `_process_and_cache` (main.py:38-77)

`time.time()` is passed explicitly. The store is the `_store` dict: key to
`(expiry, value)`. Stored tuples are always truthy, so the source's
`if not v` is exactly the missing-key check. -/

/-- Python dict assignment `d[k] = v`: replace in place or append. -/
def dictSet {α : Type} : List (String × α) → String → α → List (String × α)
  | [], k, v => [(k, v)]
  | (k0, v0) :: rest, k, v =>
    if k0 == k then (k0, v) :: rest else (k0, v0) :: dictSet rest k v

structure SimpleCache where
  store : List (String × (ℚ × Json))
deriving DecidableEq

/-- `SimpleCache.get` (main.py:44-52) evaluated at time `now`: the value (or
None) and the post-call store (an expired entry is popped). -/
def simple_cache_get (now : ℚ) (c : SimpleCache) (key : String) :
    Option Json × SimpleCache :=
  match c.store.lookup key with
  | none => (none, c)
  | some ev =>
    if now > ev.1 then (none, ⟨c.store.eraseP (fun kv => kv.1 == key)⟩)
    else (some ev.2, c)

/-- `SimpleCache.set` (main.py:54-55) at time `now`, default `ttl = 24*3600`. -/
def simple_cache_set (now : ℚ) (c : SimpleCache) (key : String) (value : Json)
    (ttl : ℚ) : SimpleCache :=
  ⟨dictSet c.store key (now + ttl, value)⟩

/-- `_process_and_cache` (main.py:66-77) for a request whose upstream call
succeeds with body `upstreamResp`: `tGet` / `tSet` are the times of the
`cache.get` and `cache.set` calls. Returns the response value, the new cache
state, and how many upstream calls were made (0 on a hit, 1 on a miss).
Metrics are not modelled. -/
def process_and_cache (tGet tSet : ℚ) (cacheKey : String) (upstreamResp : Json)
    (c : SimpleCache) : Json × SimpleCache × Nat :=
  match simple_cache_get tGet c cacheKey with
  | (some cached, c1) => (cached, c1, 0)
  | (none, c1) =>
    let normalized := normalize_plant_id_response upstreamResp
    (normalized, simple_cache_set tSet c1 cacheKey normalized 86400, 1)

/-! ## Corrupt-entry handling of the Redis-backed caches

The textual (JSON) serialization of stored values is abstracted: `.good v`
stands for a stored string that `json.loads` parses back to `v` (everything
`json.dumps` writes), `.emptyStr` for a stored empty string (falsy in
Python, and unparseable), `.corrupt` for any other unparseable string. -/

inductive StoredValue where
  | good (v : Json)
  | emptyStr
  | corrupt
deriving DecidableEq

/-- `RedisCache.get` (main.py:129-138): a missing key or a value that fails
`json.loads` yields None; the `except` swallows the parse error and the
stored entry is NOT deleted. Returns the value and the post-call store. -/
def redis_cache_get (store : List (String × StoredValue)) (key : String) :
    Option Json × List (String × StoredValue) :=
  match store.lookup key with
  | none => (none, store)
  | some (.good v) => (some v, store)
  | some .emptyStr => (none, store)
  | some .corrupt => (none, store)

/-- `CacheService.get`, Redis branch (cache_service.py:70-84): `if value:`
treats a stored empty string as a miss without parsing; a non-empty value
that fails `json.loads` is deleted (`self.redis_client.delete(key)`) and
None is returned. -/
def cache_service_get (store : List (String × StoredValue)) (key : String) :
    Option Json × List (String × StoredValue) :=
  match store.lookup key with
  | none => (none, store)
  | some (.good v) => (some v, store)
  | some .emptyStr => (none, store)
  | some .corrupt => (none, store.eraseP (fun kv => kv.1 == key))

/-! ## Concrete payloads used by individual claims -/

/-- The literal provider payload of the spec's normalization-completeness
scenario. -/
def c6_payload : Json := .obj [("result", .obj [
  ("classification", .obj [("suggestions", .arr [ .obj [
     ("id", .str "12345"), ("name", .str "Ficus lyrata"), ("probability", .num (mkRat 95 100)),
     ("details", .obj [
        ("common_names", .arr [.str "Fiddle Leaf Fig"]),
        ("description", .obj [("value", .str "A popular indoor plant."), ("citation", .str "Wiki")]),
        ("best_watering", .obj [("value", .str "Keep moist."), ("citation", .str "GardenGuide")]),
        ("best_light_condition", .str "Bright indirect light")])]])]),
  ("is_healthy", .obj [("probability", .num (mkRat 8 10))]),
  ("disease", .obj [("suggestions", .arr [])])])]

/-- The expected normalized output for `c6_payload`. -/
def c6_expected : Json := .obj [("provider", .str "plant.id"), ("raw_response", c6_payload),
  ("id", .str "12345"),
  ("common_name", .str "Fiddle Leaf Fig"),
  ("scientific_name", .str "Ficus lyrata"),
  ("confidence", .num (mkRat 95 100)),
  ("care", .obj [
     ("watering", .obj [("text", .str "Keep moist."), ("citation", .str "GardenGuide")]),
     ("light", .obj [("text", .str "Bright indirect light"), ("citation", .null)])]),
  ("description", .str "A popular indoor plant."),
  ("health_assessment", .obj [("is_healthy", .bool true), ("probability", .num (mkRat 8 10)),
                              ("diseases", .arr [])])]

/-- Disease suggestion list of the unhealthy-threshold scenario: two dict
entries plus one non-dict entry that the comprehension's filter skips. -/
def c7_ss : List Json :=
  [.obj [("name", .str "rust"), ("probability", .num (mkRat 7 10))],
   .obj [("name", .str "mildew"), ("probability", .num (mkRat 1 10))],
   .str "junk"]

/-- Payload of the unhealthy-threshold scenario (`is_healthy.probability = 0.2`). -/
def c7_unhealthy_payload : Json := .obj [("result", .obj [
  ("is_healthy", .obj [("probability", .num (mkRat 2 10))]),
  ("disease", .obj [("suggestions", .arr c7_ss)])])]

/-- The health dict `_extract_health_assessment` produces for
`c7_unhealthy_payload`. -/
def c7_health_out : Json := .obj [
  ("is_healthy", .bool false), ("probability", .num (mkRat 2 10)),
  ("diseases", .arr [
     .obj [("name", .str "rust"), ("probability", .num (mkRat 7 10)),
           ("similar_images", .arr [])],
     .obj [("name", .str "mildew"), ("probability", .num (mkRat 1 10)),
           ("similar_images", .arr [])]])]

/-! ## Helper lemmas (shared across claims) -/

/-- Every output of `_normalize_plant_id_response` has one of exactly two
shapes: the bare `provider` + `raw_response` dict (no suggestion, or the
defensive `except` path), or that dict extended by all seven derived keys at
once, with `id` always a string. -/
lemma normalize_shape (resp : Json) :
    normalize_plant_id_response resp =
      .obj [("provider", .str "plant.id"), ("raw_response", resp)] ∨
    ∃ i cn sn cf ca de ha, normalize_plant_id_response resp =
      .obj [("provider", .str "plant.id"), ("raw_response", resp),
            ("id", .str i), ("common_name", cn), ("scientific_name", sn),
            ("confidence", cf), ("care", ca), ("description", de),
            ("health_assessment", ha)] := by
  unfold normalize_plant_id_response
  cases hh : (extract_suggestions resp).head?
  · simp only [hh]
    left; trivial
  · simp only [hh]
    split
    · split
      · left; trivial
      · split
        · left; trivial
        · right; exact ⟨_, _, _, _, _, _, _, rfl⟩
    · left; trivial

/-- Keys that agree on the digest part are equal iff their `check_health`
flags agree (the `True` / `False` suffixes have different lengths). -/
lemma key_suffix_iff (p : String) (b1 b2 : Bool) :
    p ++ "_h" ++ pyBoolRepr b1 ++ "_v2" = p ++ "_h" ++ pyBoolRepr b2 ++ "_v2" ↔ b1 = b2 := by
  constructor
  · intro hk
    cases b1 <;> cases b2 <;>
      first
      | rfl
      | (exfalso
         have hl := congrArg String.length hk
         simp [pyBoolRepr, String.length_append,
               show String.length "False" = 5 from rfl,
               show String.length "True" = 4 from rfl] at hl)
  · intro hb
    rw [hb]

/-- Looking up the key just written by a dict assignment yields the new value. -/
lemma dictSet_lookup {α : Type} (st : List (String × α)) (k : String) (v : α) :
    (dictSet st k v).lookup k = some v := by
  induction st with
  | nil => simp [dictSet, List.lookup]
  | cons hd tl ih =>
    obtain ⟨k0, v0⟩ := hd
    by_cases h : k0 = k
    · simp [dictSet, h, List.lookup]
    · simp only [dictSet, beq_iff_eq, h, if_false, List.lookup]
      rw [show (k == k0) = false from beq_eq_false_iff_ne.mpr (Ne.symm h)]
      exact ih

/-- When every attempt the loop can reach fails retryably, the loop runs its
full budget, sleeps the doubling backoff sequence, and raises a 502 carrying
the exception of the last attempt. -/
lemma call_loop_all_retryable (up : Nat → UpstreamResp) :
    ∀ (fuel attempt : Nat) (backoff : ℚ) (lastExc : Option PyExc),
      (∀ i, i ≤ fuel → isRetryableFailure (up (attempt + i)) = true) →
      call_plant_id_loop up (fuel + 1) attempt backoff lastExc =
        ⟨fuel + 1, geomSleeps backoff (fuel + 1),
         .httpException 502 (some (toExc (up (attempt + fuel))))⟩ := by
  intro fuel
  induction fuel with
  | zero =>
    intro attempt backoff lastExc h
    have h0 := h 0 (Nat.le_refl 0)
    rw [Nat.add_zero] at h0
    cases hu : up attempt with
    | ok b => rw [hu] at h0; simp [isRetryableFailure] at h0
    | netError t =>
      simp [call_plant_id_loop, hu, geomSleeps, toExc]
    | httpError s =>
      rw [hu] at h0
      simp only [isRetryableFailure, Bool.and_eq_true, decide_eq_true_eq] at h0
      simp [call_plant_id_loop, hu, geomSleeps, toExc, h0.1, h0.2]
  | succ k ih =>
    intro attempt backoff lastExc h
    have h0 := h 0 (Nat.zero_le _)
    rw [Nat.add_zero] at h0
    have hshift : ∀ i, i ≤ k → isRetryableFailure (up (attempt + 1 + i)) = true := by
      intro i hi
      have := h (i + 1) (Nat.succ_le_succ hi)
      rwa [show attempt + (i + 1) = attempt + 1 + i by omega] at this
    have harith : attempt + 1 + k = attempt + (k + 1) := by omega
    cases hu : up attempt with
    | ok b => rw [hu] at h0; simp [isRetryableFailure] at h0
    | netError t =>
      have hrest := ih (attempt + 1) (backoff * 2) (some (.requestError t)) hshift
      rw [harith] at hrest
      conv_lhs => rw [call_plant_id_loop]
      rw [hu]
      dsimp only
      rw [hrest]
      rfl
    | httpError s =>
      rw [hu] at h0
      simp only [isRetryableFailure, Bool.and_eq_true, decide_eq_true_eq] at h0
      have hrest := ih (attempt + 1) (backoff * 2) (some (.httpStatusError s)) hshift
      rw [harith] at hrest
      conv_lhs => rw [call_plant_id_loop]
      rw [hu]
      dsimp only
      rw [if_pos h0]
      rw [hrest]
      rfl

/-- A `Json.get` on a non-dict value is `None`. -/
lemma Json.get_eq_null_of_not_obj (j : Json) (k : String) (h : j.isObj = false) :
    j.get k = .null := by
  cases j <;> simp [Json.get, Json.isObj] at h ⊢

/-- The is-healthy flag and probability collapse to a single formula over
the (possibly missing) `is_healthy.probability` value. -/
lemma healthFlagProb_eq (resultObj : Json) :
    healthFlagProb resultObj =
      (if ((resultObj.get "is_healthy").get "probability").isNum
       then decide (mkRat 1 2 ≤ ((resultObj.get "is_healthy").get "probability").toNum)
       else true,
       if ((resultObj.get "is_healthy").get "probability").isNum
       then ((resultObj.get "is_healthy").get "probability").toNum
       else 1) := by
  unfold healthFlagProb
  by_cases h : (resultObj.get "is_healthy").isObj = true
  · simp only [h, if_true]
    by_cases hp : ((resultObj.get "is_healthy").get "probability").isNum = true
    · simp [hp]
    · simp only [Bool.not_eq_true] at hp
      simp [hp]
  · simp only [Bool.not_eq_true] at h
    rw [Json.get_eq_null_of_not_obj _ _ h]
    simp [Json.isNum, h]

/-- A successful `diseaseList` run maps its input 1:1 in order, preserving
each entry's `name` and `probability`. -/
lemma diseaseList_spec (l : List Json) :
    ∀ ds, diseaseList l = .ok ds →
    ds.length = l.length ∧
    ∀ j, j < ds.length →
      (ds.getD j .null).get "name" = (l.getD j .null).get "name" ∧
      (ds.getD j .null).get "probability" = (l.getD j .null).get "probability" := by
  induction l with
  | nil =>
    intro ds h
    simp [diseaseList] at h
    simp [← h]
  | cons d rest ih =>
    intro ds h
    unfold diseaseList at h
    cases hE : diseaseEntry d with
    | error e => rw [hE] at h; simp [Bind.bind, Except.bind] at h
    | ok e =>
      rw [hE] at h
      cases hR : diseaseList rest with
      | error e2 => rw [hR] at h; simp [Bind.bind, Except.bind] at h
      | ok es =>
        rw [hR] at h
        simp only [Bind.bind, Except.bind, pure, Except.pure, Except.ok.injEq] at h
        obtain ⟨hlen, hidx⟩ := ih es hR
        have hname : e.get "name" = d.get "name" ∧ e.get "probability" = d.get "probability" := by
          unfold diseaseEntry at hE
          cases hSI : diseaseSimilarImages d with
          | error e3 => rw [hSI] at hE; simp [Bind.bind, Except.bind] at hE
          | ok imgs =>
            rw [hSI] at hE
            simp only [Bind.bind, Except.bind, pure, Except.pure, Except.ok.injEq] at hE
            rw [← hE]
            exact ⟨rfl, rfl⟩
        subst h
        refine ⟨by simp [hlen], fun j hj => ?_⟩
        cases j with
        | zero => simpa using hname
        | succ j2 =>
          simp only [List.getD, List.get?, List.length_cons] at hj ⊢
          exact hidx j2 (by simpa using hj)

/-! ## Claim theorems -/

/-- C1 counterexample: on the empty object the derived fields (`id`,
`common_name`, ..., `health_assessment`) are NOT present with null defaults —
they are absent from the output entirely, which the claim rules out. -/
theorem empty_object_omits_derived_fields :
    normalize_plant_id_response (.obj []) =
      .obj [("provider", .str "plant.id"), ("raw_response", .obj [])] ∧
    Json.member "id" (normalize_plant_id_response (.obj [])) = false ∧
    Json.member "common_name" (normalize_plant_id_response (.obj [])) = false ∧
    Json.member "health_assessment" (normalize_plant_id_response (.obj [])) = false :=
  ⟨rfl, rfl, rfl, rfl⟩

/-- C1 (amended): normalizing `\x7b\x7d` does not raise and returns exactly the
`provider` + `raw_response` dict with the derived fields absent (not
null-valued); in general, every output either omits all seven derived fields
or contains all seven together — no partially-populated result exists. -/
theorem normalize_all_or_nothing :
    (normalize_plant_id_response (.obj []) =
      .obj [("provider", .str "plant.id"), ("raw_response", .obj [])]) ∧
    ∀ resp, normalize_plant_id_response resp =
      .obj [("provider", .str "plant.id"), ("raw_response", resp)] ∨
    ∃ i cn sn cf ca de ha, normalize_plant_id_response resp =
      .obj [("provider", .str "plant.id"), ("raw_response", resp),
            ("id", .str i), ("common_name", cn), ("scientific_name", sn),
            ("confidence", cf), ("care", ca), ("description", de),
            ("health_assessment", ha)] :=
  ⟨rfl, normalize_shape⟩

/-- C2 counterexample: two requests with identical bytes and identical
`check_health` but different `latitude` form fields produce the SAME cache
key — the latitude/longitude "flags" are not encoded in the key, contrary to
the claim that any difference in flags changes the key. -/
theorem cache_key_ignores_latitude :
    (IdentifyRequest.mk [1, 2, 3] false (some "1.0") none).content =
      (IdentifyRequest.mk [1, 2, 3] false none none).content ∧
    (IdentifyRequest.mk [1, 2, 3] false (some "1.0") none).check_health =
      (IdentifyRequest.mk [1, 2, 3] false none none).check_health ∧
    (IdentifyRequest.mk [1, 2, 3] false (some "1.0") none).latitude ≠
      (IdentifyRequest.mk [1, 2, 3] false none none).latitude ∧
    identify_cache_key (IdentifyRequest.mk [1, 2, 3] false (some "1.0") none) =
      identify_cache_key (IdentifyRequest.mk [1, 2, 3] false none none) :=
  ⟨rfl, rfl, by simp, rfl⟩

/-- C2 (amended): the cache key is a deterministic function of the request
content and the `check_health` flag alone: for equal content (bytes, or URL
string) the keys agree exactly when the `check_health` flags agree — so
identical content plus identical flag always maps to the same key, and a
`check_health` difference always maps to a different key; the latitude and
longitude fields never affect the key. -/
theorem cache_key_content_and_health_flag :
    (∀ r1 r2 : IdentifyRequest, r1.content = r2.content →
      (identify_cache_key r1 = identify_cache_key r2 ↔ r1.check_health = r2.check_health)) ∧
    (∀ u ch1 ch2, identify_cache_key_url u ch1 = identify_cache_key_url u ch2 ↔ ch1 = ch2) := by
  refine ⟨fun r1 r2 hc => ?_, fun u ch1 ch2 => ?_⟩
  · unfold identify_cache_key make_cache_key_for_bytes
    rw [hc]
    exact key_suffix_iff _ _ _
  · unfold identify_cache_key_url
    exact key_suffix_iff _ _ _

/-- C2 witness: concrete byte content with opposite `check_health` flags
gives different keys. -/
theorem cache_key_content_and_health_flag_witness :
    identify_cache_key ⟨[1], true, none, none⟩ ≠ identify_cache_key ⟨[1], false, some "2", none⟩ :=
  fun hk => Bool.noConfusion
    ((cache_key_content_and_health_flag.1 ⟨[1], true, none, none⟩
      ⟨[1], false, some "2", none⟩ rfl).mp hk)

/-- C3: after a first request on a fresh key performs its single upstream
call and stores the normalized result, a second request with the same key
within the TTL window (24h after the store) performs ZERO upstream calls and
returns the cached value unchanged. -/
theorem cache_hit_skips_upstream (t0 tset t1 t1s : ℚ) (key : String) (u u2 : Json)
    (c0 : SimpleCache) (h0 : c0.store.lookup key = none) (hwin : t1 ≤ tset + 86400) :
    (process_and_cache t0 tset key u c0).2.2 = 1 ∧
    (process_and_cache t1 t1s key u2 (process_and_cache t0 tset key u c0).2.1).2.2 = 0 ∧
    (process_and_cache t1 t1s key u2 (process_and_cache t0 tset key u c0).2.1).1 =
      (process_and_cache t0 tset key u c0).1 := by
  have hfirst : process_and_cache t0 tset key u c0 =
      (normalize_plant_id_response u,
       simple_cache_set tset c0 key (normalize_plant_id_response u) 86400, 1) := by
    unfold process_and_cache simple_cache_get
    rw [h0]
  have hl : (simple_cache_set tset c0 key (normalize_plant_id_response u) 86400).store.lookup key
      = some (tset + 86400, normalize_plant_id_response u) := by
    unfold simple_cache_set
    exact dictSet_lookup _ _ _
  have hsecond : process_and_cache t1 t1s key u2
      (simple_cache_set tset c0 key (normalize_plant_id_response u) 86400) =
      (normalize_plant_id_response u,
       simple_cache_set tset c0 key (normalize_plant_id_response u) 86400, 0) := by
    unfold process_and_cache simple_cache_get
    rw [hl]
    dsimp only
    rw [if_neg (not_lt.mpr hwin)]
  rw [hfirst]
  exact ⟨rfl, by rw [hsecond], by rw [hsecond]⟩

/-- C3 witness: on an empty cache at time 0, the second request at time 5
is a hit with zero upstream calls. -/
theorem cache_hit_skips_upstream_witness :
    ((0 : ℚ) ≤ 0 + 86400) ∧
    (process_and_cache 0 0 "k" (.obj []) ⟨[]⟩).2.2 = 1 ∧
    (process_and_cache 5 5 "k" (.obj [("x", .null)]) (process_and_cache 0 0 "k" (.obj []) ⟨[]⟩).2.1).2.2 = 0 :=
  ⟨by norm_num,
   (cache_hit_skips_upstream 0 0 5 5 "k" (.obj []) (.obj [("x", .null)]) ⟨[]⟩ rfl (by norm_num)).1,
   (cache_hit_skips_upstream 0 0 5 5 "k" (.obj []) (.obj [("x", .null)]) ⟨[]⟩ rfl (by norm_num)).2.1⟩

/-- C4: when every attempt fails retryably (transport error or 5xx),
`_call_plant_id` makes exactly 4 POST attempts, sleeping 0.5s, 1s, 2s between
consecutive attempts (plus a final 4s sleep after the last failure, before
raising), and then raises the 502 `HTTPException` carrying the last observed
exception. -/
theorem retryable_failure_four_attempts (up : Nat → UpstreamResp)
    (h : ∀ i, i < 4 → isRetryableFailure (up i) = true) :
    (call_plant_id up).attempts = 4 ∧
    (call_plant_id up).sleeps = [mkRat 1 2, 1, 2, 4] ∧
    (call_plant_id up).result = .httpException 502 (some (toExc (up 3))) := by
  have hl := call_loop_all_retryable up 3 0 (mkRat 1 2) none
    (fun i hi => by simpa using h i (by omega))
  rw [show call_plant_id up = call_plant_id_loop up (3 + 1) 0 (mkRat 1 2) none from rfl, hl]
  refine ⟨rfl, ?_, rfl⟩
  show geomSleeps (mkRat 1 2) 4 = [mkRat 1 2, 1, 2, 4]
  norm_num [geomSleeps]

/-- C4 witness: an always-failing transport stub yields 4 attempts, the
doubling sleeps, and the 502 carrying the last transport error. -/
theorem retryable_failure_four_attempts_witness :
    (∀ i, i < 4 → isRetryableFailure ((fun _ => UpstreamResp.netError 0) i) = true) ∧
    (call_plant_id (fun _ => UpstreamResp.netError 0)).attempts = 4 ∧
    (call_plant_id (fun _ => UpstreamResp.netError 0)).sleeps = [mkRat 1 2, 1, 2, 4] ∧
    (call_plant_id (fun _ => UpstreamResp.netError 0)).result =
      .httpException 502 (some (.requestError 0)) :=
  ⟨fun _ _ => rfl,
   (retryable_failure_four_attempts (fun _ => .netError 0) (fun _ _ => rfl)).1,
   (retryable_failure_four_attempts (fun _ => .netError 0) (fun _ _ => rfl)).2.1,
   (retryable_failure_four_attempts (fun _ => .netError 0) (fun _ _ => rfl)).2.2⟩

/-- C5: a 4xx first response makes exactly 1 POST attempt, performs no
backoff sleep, and immediately raises a 502 carrying the 4xx status error —
a failure value that no run in which all four attempts fail retryably (the
exhausted-retries outcome) can produce, since that one always carries a
transport or 5xx cause. -/
theorem client_error_single_attempt (up : Nat → UpstreamResp) (s : Nat)
    (hu : up 0 = .httpError s) (h4 : 400 ≤ s) (h5 : s < 500) :
    call_plant_id up = ⟨1, [], .httpException 502 (some (.httpStatusError s))⟩ ∧
    (∀ up2, (∀ i, i < 4 → isRetryableFailure (up2 i) = true) →
      (call_plant_id up2).result ≠ (call_plant_id up).result) := by
  have hmain : call_plant_id up = ⟨1, [], .httpException 502 (some (.httpStatusError s))⟩ := by
    unfold call_plant_id call_plant_id_loop
    rw [hu]
    dsimp only
    rw [if_neg (by omega : ¬(500 ≤ s ∧ s < 600))]
  refine ⟨hmain, fun up2 h2 hcontra => ?_⟩
  have hl := call_loop_all_retryable up2 3 0 (mkRat 1 2) none
    (fun i hi => by simpa using h2 i (by omega))
  rw [hmain] at hcontra
  rw [show call_plant_id up2 = call_plant_id_loop up2 (3 + 1) 0 (mkRat 1 2) none from rfl,
      hl] at hcontra
  simp only [CallResult.httpException.injEq, Option.some.injEq] at hcontra
  have hr := h2 3 (by omega)
  cases hu3 : up2 3 with
  | ok b => rw [hu3] at hr; simp [isRetryableFailure] at hr
  | netError t =>
    rw [hu3] at hcontra
    simp [toExc] at hcontra
  | httpError s2 =>
    rw [hu3] at hr hcontra
    simp only [isRetryableFailure, Bool.and_eq_true, decide_eq_true_eq] at hr
    simp only [toExc, PyExc.httpStatusError.injEq] at hcontra
    omega

/-- C5 witness: a stub returning HTTP 400 makes one attempt and raises
immediately; an all-transport-failure run produces a different failure. -/
theorem client_error_single_attempt_witness :
    call_plant_id (fun _ => UpstreamResp.httpError 400) =
      ⟨1, [], .httpException 502 (some (.httpStatusError 400))⟩ ∧
    (call_plant_id (fun _ => UpstreamResp.netError 7)).result ≠
      (call_plant_id (fun _ => UpstreamResp.httpError 400)).result :=
  ⟨(client_error_single_attempt (fun _ => .httpError 400) 400 rfl (by omega) (by omega)).1,
   (client_error_single_attempt (fun _ => .httpError 400) 400 rfl (by omega) (by omega)).2
     (fun _ => .netError 7) (fun _ _ => rfl)⟩

/-- C6: on the literal provider payload of the spec scenario, normalization
yields exactly the expected scientific name, common name, confidence,
description, care (watering text/citation, light text) and health assessment
(healthy at probability 0.8, empty disease list). -/
theorem normalize_literal_scenario :
    normalize_plant_id_response c6_payload = c6_expected := by rfl

/-- C7: the extracted health assessment is `None` exactly when the payload's
`result` is not a dict or lacks an `is_healthy` key; when present, the
`is_healthy` flag is the `>= 0.5` threshold of the numeric
`is_healthy.probability` (with that probability preserved), defaulting to
healthy / 1.0 when the probability is absent or non-numeric; and the disease
suggestions are mapped 1:1 in order with `name` and `probability` preserved,
with non-dict entries skipped. -/
theorem health_assessment_contract :
    (∀ resp, (extract_health_assessment resp = Except.ok none) ↔
      ((resp.get "result").isObj = false ∨
       Json.member "is_healthy" (resp.get "result") = false)) ∧
    (∀ resp hj, extract_health_assessment resp = .ok (some hj) →
      hj.get "is_healthy" =
        .bool (if (((resp.get "result").get "is_healthy").get "probability").isNum
               then decide (mkRat 1 2 ≤
                 (((resp.get "result").get "is_healthy").get "probability").toNum)
               else true) ∧
      hj.get "probability" =
        .num (if (((resp.get "result").get "is_healthy").get "probability").isNum
              then (((resp.get "result").get "is_healthy").get "probability").toNum
              else 1)) ∧
    (∀ resp hj ss, extract_health_assessment resp = .ok (some hj) →
      ((resp.get "result").get "disease").isObj = true →
      ((resp.get "result").get "disease").get "suggestions" = .arr ss →
      ∃ ds, hj.get "diseases" = .arr ds ∧
        diseaseList (ss.filter (fun d => d.isObj)) = .ok ds ∧
        ds.length = (ss.filter (fun d => d.isObj)).length ∧
        ∀ j, j < ds.length →
          (ds.getD j .null).get "name" =
            ((ss.filter (fun d => d.isObj)).getD j .null).get "name" ∧
          (ds.getD j .null).get "probability" =
            ((ss.filter (fun d => d.isObj)).getD j .null).get "probability") := by
  refine ⟨fun resp => ?_, fun resp hj heq => ?_, fun resp hj ss heq hobj hsugg => ?_⟩
  · by_cases h1 : (resp.get "result").isObj = true
    · by_cases h2 : Json.member "is_healthy" (resp.get "result") = true
      · have hlive : extract_health_assessment resp ≠ .ok none := by
          unfold extract_health_assessment
          simp only [h1, h2, Bool.not_true, Bool.false_eq_true, if_false]
          cases hD : healthDiseasesE (resp.get "result") <;>
            simp [hD, Bind.bind, Except.bind, pure, Except.pure]
        simp [hlive, h1, h2]
      · simp only [Bool.not_eq_true] at h2
        have : extract_health_assessment resp = .ok none := by
          unfold extract_health_assessment
          simp [h1, h2]
        simp [this, h2]
    · simp only [Bool.not_eq_true] at h1
      have : extract_health_assessment resp = .ok none := by
        unfold extract_health_assessment
        simp [h1]
      simp [this, h1]
  · unfold extract_health_assessment at heq
    by_cases h1 : (resp.get "result").isObj = true
    · by_cases h2 : Json.member "is_healthy" (resp.get "result") = true
      · simp only [h1, h2, Bool.not_true, Bool.false_eq_true, if_false] at heq
        cases hD : healthDiseasesE (resp.get "result") with
        | error e => rw [hD] at heq; simp [Bind.bind, Except.bind] at heq
        | ok ds =>
          rw [hD] at heq
          simp only [Bind.bind, Except.bind, pure, Except.pure, Except.ok.injEq,
                     Option.some.injEq] at heq
          rw [← heq, healthFlagProb_eq]
          exact ⟨rfl, rfl⟩
      · simp only [Bool.not_eq_true] at h2
        simp [h1, h2] at heq
    · simp only [Bool.not_eq_true] at h1
      simp [h1] at heq
  · unfold extract_health_assessment at heq
    by_cases h1 : (resp.get "result").isObj = true
    · by_cases h2 : Json.member "is_healthy" (resp.get "result") = true
      · simp only [h1, h2, Bool.not_true, Bool.false_eq_true, if_false] at heq
        have hDval : healthDiseasesE (resp.get "result") =
            diseaseList (ss.filter (fun d => d.isObj)) := by
          unfold healthDiseasesE
          simp [hobj, hsugg]
        cases hD : healthDiseasesE (resp.get "result") with
        | error e => rw [hD] at heq; simp [Bind.bind, Except.bind] at heq
        | ok ds =>
          rw [hD] at heq
          simp only [Bind.bind, Except.bind, pure, Except.pure, Except.ok.injEq,
                     Option.some.injEq] at heq
          obtain ⟨hlen, hidx⟩ := diseaseList_spec _ ds (hDval ▸ hD)
          exact ⟨ds, by rw [← heq]; rfl, hDval ▸ hD, hlen, hidx⟩
      · simp only [Bool.not_eq_true] at h2
        simp [h1, h2] at heq
    · simp only [Bool.not_eq_true] at h1
      simp [h1] at heq

/-- C7 witness: the empty payload yields a null health assessment; the
unhealthy-threshold payload (probability 0.2, two disease dicts and one
non-dict entry) is thresholded to unhealthy with both diseases mapped in
order. -/
theorem health_assessment_contract_witness :
    (extract_health_assessment (.obj []) = Except.ok none) ∧
    c7_health_out.get "is_healthy" = .bool false ∧
    c7_health_out.get "probability" = .num (mkRat 2 10) ∧
    (∃ ds, c7_health_out.get "diseases" = .arr ds ∧
      diseaseList (c7_ss.filter (fun d => d.isObj)) = .ok ds ∧
      ds.length = (c7_ss.filter (fun d => d.isObj)).length ∧
      ∀ j, j < ds.length →
        (ds.getD j .null).get "name" =
          ((c7_ss.filter (fun d => d.isObj)).getD j .null).get "name" ∧
        (ds.getD j .null).get "probability" =
          ((c7_ss.filter (fun d => d.isObj)).getD j .null).get "probability") :=
  ⟨(health_assessment_contract.1 (.obj [])).mpr (Or.inl rfl),
   (health_assessment_contract.2.1 c7_unhealthy_payload c7_health_out (by rfl)).1,
   (health_assessment_contract.2.1 c7_unhealthy_payload c7_health_out (by rfl)).2,
   health_assessment_contract.2.2 c7_unhealthy_payload c7_health_out c7_ss
     (by rfl) (by rfl) (by rfl)⟩

/-- C8: for every input value, the `raw_response` field of the normalization
output is the input itself, verbatim, whether or not the derived fields could
be populated (the embedding is pure, and the source never writes into
`resp`). -/
theorem raw_response_preserved (resp : Json) :
    (normalize_plant_id_response resp).get "raw_response" = resp := by
  rcases normalize_shape resp with h | ⟨i, cn, sn, cf, ca, de, ha, h⟩ <;> rw [h] <;> rfl

/-- C9 counterexample: `RedisCache.get` (the identification pipeline's
durable backend) returns a miss on a corrupt stored value but leaves the
corrupt entry in the store, contradicting the claimed removal. -/
theorem redis_cache_get_keeps_corrupt_entry :
    redis_cache_get [("k", StoredValue.corrupt)] "k" = (none, [("k", StoredValue.corrupt)]) ∧
    List.lookup "k" (redis_cache_get [("k", StoredValue.corrupt)] "k").2 =
      some StoredValue.corrupt :=
  ⟨rfl, rfl⟩

/-- C9 (amended): a get on a corrupt stored value is a miss and never an
error for both Redis-backed implementations, but only `CacheService.get`
(services/cache_service.py) deletes the corrupt entry; `RedisCache.get`
(main.py) leaves it in place. -/
theorem corrupt_entry_miss_behavior (store : List (String × StoredValue)) (key : String)
    (h : store.lookup key = some .corrupt) :
    redis_cache_get store key = (none, store) ∧
    cache_service_get store key = (none, store.eraseP (fun kv => kv.1 == key)) := by
  unfold redis_cache_get cache_service_get
  rw [h]
  exact ⟨rfl, rfl⟩

/-- C9 witness: a concrete store with one corrupt entry — `RedisCache.get`
keeps it, `CacheService.get` deletes it. -/
theorem corrupt_entry_miss_behavior_witness :
    redis_cache_get [("j", StoredValue.corrupt)] "j" = (none, [("j", StoredValue.corrupt)]) ∧
    cache_service_get [("j", StoredValue.corrupt)] "j" = (none, []) := by
  have h := corrupt_entry_miss_behavior [("j", StoredValue.corrupt)] "j" (by rfl)
  exact ⟨h.1, h.2⟩

/-- C10 counterexample: a payload whose top suggestion is a truthy dict (so
"a top suggestion object exists") but whose `details` value is a truthy
non-dict takes the defensive `except` path: the output has NO `id` field at
all, so the id is not "always a string" when a top suggestion exists. -/
theorem exception_path_omits_id :
    extract_suggestions (.obj [("suggestions", .arr [.obj [("details", .arr [.num 1])]])]) =
      [.obj [("details", .arr [.num 1])]] ∧
    (Json.obj [("details", .arr [.num 1])]).truthy = true ∧
    (Json.obj [("details", .arr [.num 1])]).isObj = true ∧
    Json.member "id" (normalize_plant_id_response
      (.obj [("suggestions", .arr [.obj [("details", .arr [.num 1])]])])) = false :=
  ⟨rfl, rfl, rfl, rfl⟩

/-- C10 (amended): whenever the output carries an `id` field at all, that
field is a JSON string — never null, even though the schema allows null —
and a suggestion with neither `id` nor `species_id` yields the empty string;
on the defensive exception path the field is absent entirely. -/
theorem id_field_string_when_emitted :
    (∀ resp, Json.member "id" (normalize_plant_id_response resp) = true →
      ∃ s, (normalize_plant_id_response resp).get "id" = Json.str s) ∧
    (normalize_plant_id_response
      (.obj [("suggestions", .arr [.obj [("name", .str "x")]])])).get "id" = .str "" := by
  refine ⟨fun resp hmem => ?_, by rfl⟩
  rcases normalize_shape resp with h | ⟨i, cn, sn, cf, ca, de, ha, h⟩
  · rw [h] at hmem
    exact absurd hmem (by simp [Json.member])
  · rw [h]
    exact ⟨i, by rfl⟩

/-- C10 witness: on a payload whose suggestion has a string id, the emitted
`id` field is a JSON string. -/
theorem id_field_string_when_emitted_witness :
    ∃ s, (normalize_plant_id_response
      (.obj [("suggestions", .arr [.obj [("id", .str "abc")]])])).get "id" = Json.str s :=
  id_field_string_when_emitted.1 _ (by rfl)
